import Mathlib

/-!
Verification of the material-recovery simulation / sensitivity / investment
core of the repository.  Numeric values are embedded as exact rationals (ℚ);
the source's branded numeric types (Kilograms, USD, …) are plain ℚ here.
Functions that `throw` in the source are embedded as `Except String`
computations, error-message strings matching the source.
-/

deriving instance DecidableEq for Except

namespace Rainier

/-- Source: `packages/core/src/simulatePanelFlow.ts`, `DEFAULT_TRUCK_SPEED_KM_PER_HOUR`. -/
def DEFAULT_TRUCK_SPEED_KM_PER_HOUR : ℚ := 50

/-- Source: `DEFAULT_LOAD_UNLOAD_HOURS_PER_TRIP = 0.25`. -/
def DEFAULT_LOAD_UNLOAD_HOURS_PER_TRIP : ℚ := 1 / 4

/-- Source: `interface UnitOfWork` (masses in kg, distances in km). -/
structure UnitOfWork where
  inboundMaterial : ℚ
  haulDistancePerTrip : ℚ
deriving DecidableEq, Repr

/-- Source: `interface CostDrivers`. -/
structure CostDrivers where
  truckCapacity : ℚ
  haulCostPerKm : ℚ
  laborCostPerHour : ℚ
  crusherProcessingCostPerKg : ℚ
  grinderProcessingCostPerKg : ℚ
  crusherThroughputKgPerHour : ℚ
  grinderThroughputKgPerHour : ℚ
deriving DecidableEq, Repr

/-- Source: `interface SustainabilityDrivers`. -/
structure SustainabilityDrivers where
  haulEmissionsPerKm : ℚ
  crusherEmissionsPerKg : ℚ
  grinderEmissionsPerKg : ℚ
  crusherRecoveryRate : ℚ
  grinderRecoveryRate : ℚ
deriving DecidableEq, Repr

/-- Source: `interface SimulationOptions`; the two optional fields default to
the `DEFAULT_SIMULATION_OPTIONS` values when absent (`??` in the source). -/
structure SimulationOptions where
  useCrusher : Bool
  truckSpeedKmPerHour : Option ℚ := none
  loadUnloadHoursPerTrip : Option ℚ := none
deriving DecidableEq, Repr

/-- Source: `interface SimulationResult`.  `truckTrips` is an integer in the
source (`Math.ceil`), so it is ℤ here. -/
structure SimulationResult where
  totalCost : ℚ
  totalTime : ℚ
  totalEmissions : ℚ
  truckTrips : ℤ
  materialRecovered : ℚ
deriving DecidableEq, Repr

/-- The arithmetic tail of `simulatePanelFlow` (everything after the
validations succeed), line for line from the source. -/
def simulationBody (unitOfWork : UnitOfWork) (costDrivers : CostDrivers)
    (sustainabilityDrivers : SustainabilityDrivers) (options : SimulationOptions) :
    SimulationResult :=
  let truckSpeed := options.truckSpeedKmPerHour.getD DEFAULT_TRUCK_SPEED_KM_PER_HOUR
  let loadUnloadHours :=
    options.loadUnloadHoursPerTrip.getD DEFAULT_LOAD_UNLOAD_HOURS_PER_TRIP
  let inputKg := unitOfWork.inboundMaterial
  let distancePerTripKm := unitOfWork.haulDistancePerTrip
  let trips : ℤ := ⌈inputKg / costDrivers.truckCapacity⌉
  let processingThroughput :=
    if options.useCrusher then costDrivers.crusherThroughputKgPerHour
    else costDrivers.grinderThroughputKgPerHour
  let processingCostPerKg :=
    if options.useCrusher then costDrivers.crusherProcessingCostPerKg
    else costDrivers.grinderProcessingCostPerKg
  let processEmissionsPerKg :=
    if options.useCrusher then sustainabilityDrivers.crusherEmissionsPerKg
    else sustainabilityDrivers.grinderEmissionsPerKg
  let recoveryRate :=
    if options.useCrusher then sustainabilityDrivers.crusherRecoveryRate
    else sustainabilityDrivers.grinderRecoveryRate
  let totalDistanceKm := (trips : ℚ) * distancePerTripKm
  let haulTimeHours := totalDistanceKm / truckSpeed + (trips : ℚ) * loadUnloadHours
  let processingTimeHours := inputKg / processingThroughput
  let totalTimeHours := haulTimeHours + processingTimeHours
  let haulCost := totalDistanceKm * costDrivers.haulCostPerKm
  let processingCost := inputKg * processingCostPerKg
  let laborCost := totalTimeHours * costDrivers.laborCostPerHour
  let totalCostValue := haulCost + processingCost + laborCost
  let haulEmissions := totalDistanceKm * sustainabilityDrivers.haulEmissionsPerKm
  let processEmissions := inputKg * processEmissionsPerKg
  let totalEmissionsValue := haulEmissions + processEmissions
  let recoveredKg := inputKg * recoveryRate
  { totalCost := totalCostValue
    totalTime := totalTimeHours
    totalEmissions := totalEmissionsValue
    truckTrips := trips
    materialRecovered := recoveredKg }

/-- Source: `simulatePanelFlow`.  Each `validatePositive` / `validateRate`
`throw` in the source is an early `Except.error` here, in source order; the
remaining computation is `simulationBody`. -/
def simulatePanelFlow (unitOfWork : UnitOfWork) (costDrivers : CostDrivers)
    (sustainabilityDrivers : SustainabilityDrivers) (options : SimulationOptions) :
    Except String SimulationResult :=
  if options.truckSpeedKmPerHour.getD DEFAULT_TRUCK_SPEED_KM_PER_HOUR ≤ 0 then
    .error "truckSpeedKmPerHour must be > 0"
  else if options.loadUnloadHoursPerTrip.getD DEFAULT_LOAD_UNLOAD_HOURS_PER_TRIP ≤ 0 then
    .error "loadUnloadHoursPerTrip must be > 0"
  else if costDrivers.truckCapacity ≤ 0 then .error "truckCapacity must be > 0"
  else if unitOfWork.inboundMaterial ≤ 0 then .error "inboundMaterial must be > 0"
  else if unitOfWork.haulDistancePerTrip ≤ 0 then
    .error "haulDistancePerTrip must be > 0"
  else if sustainabilityDrivers.crusherRecoveryRate < 0 ∨
      sustainabilityDrivers.crusherRecoveryRate > 1 then
    .error "crusherRecoveryRate must be between 0 and 1"
  else if sustainabilityDrivers.grinderRecoveryRate < 0 ∨
      sustainabilityDrivers.grinderRecoveryRate > 1 then
    .error "grinderRecoveryRate must be between 0 and 1"
  else if (if options.useCrusher then costDrivers.crusherThroughputKgPerHour
      else costDrivers.grinderThroughputKgPerHour) ≤ 0 then
    .error "processingThroughputKgPerHour must be > 0"
  else .ok (simulationBody unitOfWork costDrivers sustainabilityDrivers options)

end Rainier

namespace Rainier

/-! ### Environmental KPI calculator, source `environmentalKpis.ts` -/

/-- Source: `interface EnvironmentalKpiFactors` (`Miles` is plain ℚ). -/
structure EnvironmentalKpiFactors where
  co2AvoidedPerKgRecovered : ℚ
  carbonCapturePotentialPerKgRecovered : ℚ
  baselineTruckMilesPerTrip : ℚ
  optimizedTruckMilesPerTrip : ℚ
deriving DecidableEq, Repr

/-- Source: `DEFAULT_ENVIRONMENTAL_KPI_FACTORS` (0.00012, 0.00003, 42, 30). -/
def DEFAULT_ENVIRONMENTAL_KPI_FACTORS : EnvironmentalKpiFactors :=
  { co2AvoidedPerKgRecovered := 12 / 100000
    carbonCapturePotentialPerKgRecovered := 3 / 100000
    baselineTruckMilesPerTrip := 42
    optimizedTruckMilesPerTrip := 30 }

/-- A `Partial<EnvironmentalKpiFactors>` override object: every field optional. -/
structure EnvironmentalKpiFactorOverrides where
  co2AvoidedPerKgRecovered : Option ℚ := none
  carbonCapturePotentialPerKgRecovered : Option ℚ := none
  baselineTruckMilesPerTrip : Option ℚ := none
  optimizedTruckMilesPerTrip : Option ℚ := none
deriving DecidableEq, Repr

/-- Source: `resolvedFactors` — spread of the defaults overridden by present fields. -/
def resolvedFactors (overrides : EnvironmentalKpiFactorOverrides) : EnvironmentalKpiFactors :=
  { co2AvoidedPerKgRecovered :=
      overrides.co2AvoidedPerKgRecovered.getD
        DEFAULT_ENVIRONMENTAL_KPI_FACTORS.co2AvoidedPerKgRecovered
    carbonCapturePotentialPerKgRecovered :=
      overrides.carbonCapturePotentialPerKgRecovered.getD
        DEFAULT_ENVIRONMENTAL_KPI_FACTORS.carbonCapturePotentialPerKgRecovered
    baselineTruckMilesPerTrip :=
      overrides.baselineTruckMilesPerTrip.getD
        DEFAULT_ENVIRONMENTAL_KPI_FACTORS.baselineTruckMilesPerTrip
    optimizedTruckMilesPerTrip :=
      overrides.optimizedTruckMilesPerTrip.getD
        DEFAULT_ENVIRONMENTAL_KPI_FACTORS.optimizedTruckMilesPerTrip }

/-- Source: `computeCO2Avoided`, `validateFactors` inlined as the three checks
of the source in order.  Result is `max(0, gross − operational)`. -/
def computeCO2Avoided (simulationResult : SimulationResult)
    (factorOverrides : EnvironmentalKpiFactorOverrides) : Except String ℚ :=
  let factors := resolvedFactors factorOverrides
  if factors.co2AvoidedPerKgRecovered < 0 then
    .error "co2AvoidedPerKgRecovered must be >= 0"
  else if factors.carbonCapturePotentialPerKgRecovered < 0 then
    .error "carbonCapturePotentialPerKgRecovered must be >= 0"
  else if factors.baselineTruckMilesPerTrip < 0 ∨ factors.optimizedTruckMilesPerTrip < 0 then
    .error "truck miles factors must be >= 0"
  else
    let grossAvoided := simulationResult.materialRecovered * factors.co2AvoidedPerKgRecovered
    .ok (max 0 (grossAvoided - simulationResult.totalEmissions))

/-! ### Investment evaluator, source `investmentEvaluator.ts` -/

/-- Source: `interface SimulationCashFlowPoint`.  Periods are integers by type;
the source validates `Number.isInteger` at runtime, positivity is validated in
`seriesFromScenario`. -/
structure SimulationCashFlowPoint where
  period : ℤ
  simulationResult : SimulationResult
  recoveredMaterialRevenue : ℚ
  otherCashFlow : Option ℚ := none
deriving DecidableEq, Repr

/-- Source: `interface InvestmentScenarioInput`. -/
structure InvestmentScenarioInput where
  points : List SimulationCashFlowPoint
  initialInvestment : Option ℚ := none
deriving DecidableEq, Repr

/-- Net contribution of one point:
`revenue − simulationResult.totalCost + (otherCashFlow ?? 0)`. -/
def netOfPoint (point : SimulationCashFlowPoint) : ℚ :=
  point.recoveredMaterialRevenue - point.simulationResult.totalCost +
    point.otherCashFlow.getD 0

/-- The source's `netByPeriod` map, read back at a period: the sum of the net
contributions of every point with that period (the map accumulates
`(netByPeriod.get(period) ?? 0) + net`). -/
def netAt (points : List SimulationCashFlowPoint) (period : ℤ) : ℚ :=
  ((points.filter fun point => point.period = period).map netOfPoint).sum

/-- `[...new Set(list)]` in the source: deduplication keeping first occurrences. -/
def dedupKeepFirst {α : Type} [DecidableEq α] (l : List α) : List α :=
  l.foldl (fun acc a => if a ∈ acc then acc else acc ++ [a]) []

/-- The source's `[...netByPeriod.keys()].sort((a, b) => a - b)`: the distinct
periods of the scenario in increasing order. -/
def sortedPeriods (points : List SimulationCashFlowPoint) : List ℤ :=
  List.insertionSort (· ≤ ·) (dedupKeepFirst (points.map fun point => point.period))

/-- Source: `seriesFromScenario`.  Throws when some period is `< 1` (the
`Number.isInteger` half of the source check holds by the ℤ type).  Returns the
sorted period list together with `cashFlows = [initial, ...nets]`; the source's
`-0` normalisation is a no-op on ℚ. -/
def seriesFromScenario (scenario : InvestmentScenarioInput) :
    Except String (List ℤ × List ℚ) :=
  if scenario.points.any (fun point => point.period < 1) then
    .error "period must be a positive integer starting at 1"
  else
    let periods := sortedPeriods scenario.points
    let initial := -(scenario.initialInvestment.getD 0)
    .ok (periods, initial :: periods.map (netAt scenario.points))

/-- Index-carrying sum for `NPV`: `Σ flow_i / (1+rate)^(startIndex+i)`.  The
source accumulates left-to-right with `reduce`; over ℚ the two orders agree. -/
def NPVsum (discountRate : ℚ) : List ℚ → ℕ → ℚ
  | [], _ => 0
  | cashFlow :: rest, periodIndex =>
      cashFlow / (1 + discountRate) ^ periodIndex + NPVsum discountRate rest (periodIndex + 1)

/-- The numeric value `Σ flow_i / (1+rate)^i` computed by `NPV`. -/
def NPVval (discountRate : ℚ) (cashFlows : List ℚ) : ℚ :=
  NPVsum discountRate cashFlows 0

/-- Source: `NPV` — throws for `discountRate ≤ -1`, otherwise the discounted sum. -/
def NPV (discountRate : ℚ) (cashFlows : List ℚ) : Except String ℚ :=
  if discountRate ≤ -1 then .error "discountRate must be greater than -1"
  else .ok (NPVval discountRate cashFlows)

/-- The `for` loop of `PaybackPeriod`: `i` is the current period index and
`cum` the cumulative sum through period `i − 1` (negative on entry). -/
def paybackLoop : List ℚ → ℕ → ℚ → Option ℚ
  | [], _, _ => none
  | cashFlow :: rest, i, cum =>
      let cum2 := cum + cashFlow
      if 0 ≤ cum2 then
        if cashFlow ≤ 0 then some (i : ℚ)
        else some ((i : ℚ) - 1 + -cum / cashFlow)
      else paybackLoop rest (i + 1) cum2

/-- Source: `PaybackPeriod` — `null` on empty input, `0` when the period-0
cumulative is already ≥ 0, otherwise the walk of the loop above from period 1. -/
def PaybackPeriod (cashFlows : List ℚ) : Option ℚ :=
  match cashFlows with
  | [] => none
  | first :: rest => if 0 ≤ first then some 0 else paybackLoop rest 1 first

/-- The `while` loop of `IRR` doubling `high` at most `fuel` more times while
`fLow * fHigh > 0`; errors propagate from `NPV` as in the source. -/
def expandHigh (cashFlows : List ℚ) (fLow : ℚ) :
    ℕ → ℚ → ℚ → Except String (ℚ × ℚ)
  | 0, high, fHigh => .ok (high, fHigh)
  | fuel + 1, high, fHigh =>
      if fLow * fHigh > 0 then do
        let high2 := high * 2
        let fHigh2 ← NPV high2 cashFlows
        expandHigh cashFlows fLow fuel high2 fHigh2
      else .ok (high, fHigh)

/-- The bisection `for` loop of `IRR` with `fuel` iterations left; returns the
final midpoint when the budget is exhausted. -/
def bisect (cashFlows : List ℚ) (tolerance : ℚ) :
    ℕ → ℚ → ℚ → ℚ → ℚ → Except String ℚ
  | 0, low, high, _, _ => .ok ((low + high) / 2)
  | fuel + 1, low, high, fLow, fHigh => do
      let mid := (low + high) / 2
      let fMid ← NPV mid cashFlows
      if |fMid| < tolerance then .ok mid
      else if fLow * fMid < 0 then bisect cashFlows tolerance fuel low mid fLow fMid
      else bisect cashFlows tolerance fuel mid high fMid fHigh

/-- Source: `IRR` with its default optional arguments `maxIterations = 200`,
`tolerance = 1e-7` inlined.  `Except` carries the error a nested `NPV` call
would throw; `Option` is the source's `number | null` result. -/
def IRR (cashFlows : List ℚ) : Except String (Option ℚ) :=
  if cashFlows.length < 2 then .ok none
  else
    let hasPositive := cashFlows.any fun value => value > 0
    let hasNegative := cashFlows.any fun value => value < 0
    if !hasPositive || !hasNegative then .ok none
    else do
      let low : ℚ := -(9999 / 10000)
      let fLow ← NPV low cashFlows
      let fHigh0 ← NPV 1 cashFlows
      let expanded ← expandHigh cashFlows fLow 20 1 fHigh0
      if fLow * expanded.2 > 0 then .ok none
      else do
        let root ← bisect cashFlows (1 / 10 ^ 7) 200 low expanded.1 fLow expanded.2
        .ok (some root)

/-- Source: `interface ScenarioFinancialMetrics`. -/
structure ScenarioFinancialMetrics where
  cashFlows : List ℚ
  npv : ℚ
  irr : Option ℚ
  paybackPeriod : Option ℚ
deriving DecidableEq, Repr

/-- Source: `interface EvaluateInvestmentInput`. -/
structure EvaluateInvestmentInput where
  discountRate : ℚ
  baseline : InvestmentScenarioInput
  grinderPurchase : InvestmentScenarioInput
deriving DecidableEq, Repr

/-- Source: `interface InvestmentComparisonResult`; `preferredOption` keeps the
source's string union `"baseline" | "grinderPurchase" | "tie"`. -/
structure InvestmentComparisonResult where
  baseline : ScenarioFinancialMetrics
  grinderPurchase : ScenarioFinancialMetrics
  incremental : ScenarioFinancialMetrics
  preferredOption : String
deriving DecidableEq, Repr

/-- Source: `makeMetrics` — NPV/IRR/payback of a cash-flow series. -/
def makeMetrics (discountRate : ℚ) (cashFlows : List ℚ) :
    Except String ScenarioFinancialMetrics := do
  let npv ← NPV discountRate cashFlows
  let irr ← IRR cashFlows
  .ok { cashFlows := cashFlows
        npv := npv
        irr := irr
        paybackPeriod := PaybackPeriod cashFlows }

/-- Source: `evaluateInvestment`. -/
def evaluateInvestment (input : EvaluateInvestmentInput) :
    Except String InvestmentComparisonResult := do
  let baseline ← seriesFromScenario input.baseline
  let grinder ← seriesFromScenario input.grinderPurchase
  let allPeriods := List.insertionSort (· ≤ ·) (dedupKeepFirst (baseline.1 ++ grinder.1))
  let incrementalInitial :=
    -(input.grinderPurchase.initialInvestment.getD 0) +
      input.baseline.initialInvestment.getD 0
  let incrementalCashFlows :=
    incrementalInitial ::
      allPeriods.map fun period =>
        netAt input.grinderPurchase.points period - netAt input.baseline.points period
  let baselineMetrics ← makeMetrics input.discountRate baseline.2
  let grinderMetrics ← makeMetrics input.discountRate grinder.2
  let incrementalMetrics ← makeMetrics input.discountRate incrementalCashFlows
  let preferredOption :=
    if baselineMetrics.npv < grinderMetrics.npv then "grinderPurchase"
    else if grinderMetrics.npv < baselineMetrics.npv then "baseline"
    else "tie"
  .ok { baseline := baselineMetrics
        grinderPurchase := grinderMetrics
        incremental := incrementalMetrics
        preferredOption := preferredOption }

end Rainier
namespace Rainier

/-! ### Sensitivity grid engine, source `apps/lab/app/api/sensitivity/simulation.ts` -/

/-- Source: `const EPSILON = 1e-9`. -/
def EPSILON : ℚ := 1 / 10 ^ 9

/-- Source: `const MAX_GRID_POINTS = 2500`. -/
def MAX_GRID_POINTS : ℕ := 2500

/-- Source: `round(value, digits = 6)`, i.e. `Number(value.toFixed(6))`:
round to 6 decimal digits.  On this exact-rational embedding it is
floor(x·10⁶ + 1/2)/10⁶ (round half up), which is monotone and agrees with the
source on every non-tie value. -/
def round6 (value : ℚ) : ℚ := (⌊value * 10 ^ 6 + 1 / 2⌋ : ℚ) / 10 ^ 6

/-- Source: `roundNullable`. -/
def roundNullable (value : Option ℚ) : Option ℚ := value.map round6

/-- Source: a zod `numericRangeSchema` object `{start, end, step}`; the field
`end` is a Lean keyword, embedded as `endValue`. -/
structure NumericRange where
  start : ℚ
  endValue : ℚ
  step : ℚ
deriving DecidableEq, Repr

/-- The mutually exclusive grinder axis of `sensitivityRangesSchema`:
exactly one of `grinderUtilization` / `grinderThroughputKgPerHour` is present
in a schema-valid payload, which this sum type captures by construction. -/
inductive GrinderAxis where
  | utilization (range : NumericRange)
  | throughput (range : NumericRange)
deriving DecidableEq, Repr

/-- Source: `type GrinderAxisMode = "utilization" | "throughput"`. -/
inductive GrinderAxisMode where
  | utilization
  | throughput
deriving DecidableEq, Repr

/-- The `ranges` object of a schema-valid sensitivity request. -/
structure SensitivityRanges where
  haulDistancePerTrip : NumericRange
  reuseUptakeRate : NumericRange
  grinderAxis : GrinderAxis
deriving DecidableEq, Repr

/-- Source: `sensitivityAssumptionsSchema` — all fields optional. -/
structure SensitivityAssumptionOverrides where
  virginAggregateEmissionsPerKg : Option ℚ := none
  virginAggregateCostPerKg : Option ℚ := none
  landfillDisposalCostPerKg : Option ℚ := none
  grinderCapitalCostUsd : Option ℚ := none
  runsPerDay : Option ℚ := none
deriving DecidableEq, Repr

/-- Source: `expeditePenaltyProxySchema` — all fields optional.  The source's
`readinessExponent` is any number ≥ 1; it is embedded as ℕ (the documented
default is the integer 2) so that the power stays inside ℚ. -/
structure ExpeditePenaltyProxyOverrides where
  enabled : Option Bool := none
  specReadiness : Option ℚ := none
  lowSpecReadinessThreshold : Option ℚ := none
  readinessExponent : Option ℕ := none
  baseCostPenaltyUsd : Option ℚ := none
  baseEmissionsPenaltyTonsCO2e : Option ℚ := none
  haulDistanceThresholdKm : Option ℚ := none
  haulCostPenaltyUsdPerKm : Option ℚ := none
  haulEmissionsPenaltyTonsCO2ePerKm : Option ℚ := none
deriving DecidableEq, Repr

/-- Source: `SensitivityRequestPayload` (after zod parsing). -/
structure SensitivityRequestPayload where
  unitOfWork : UnitOfWork
  costDrivers : CostDrivers
  sustainabilityDrivers : SustainabilityDrivers
  ranges : SensitivityRanges
  assumptions : Option SensitivityAssumptionOverrides := none
  expeditePenaltyProxy : Option ExpeditePenaltyProxyOverrides := none
deriving DecidableEq, Repr

/-- Source: `NormalizedSensitivityAssumptions`. -/
structure NormalizedSensitivityAssumptions where
  virginAggregateEmissionsPerKg : ℚ
  virginAggregateCostPerKg : ℚ
  landfillDisposalCostPerKg : ℚ
  grinderCapitalCostUsd : ℚ
  runsPerDay : ℚ
deriving DecidableEq, Repr

/-- Source: `NormalizedPenaltyProxy`. -/
structure NormalizedPenaltyProxy where
  enabled : Bool
  specReadiness : ℚ
  lowSpecReadinessThreshold : ℚ
  readinessExponent : ℕ
  baseCostPenaltyUsd : ℚ
  baseEmissionsPenaltyTonsCO2e : ℚ
  haulDistanceThresholdKm : ℚ
  haulCostPenaltyUsdPerKm : ℚ
  haulEmissionsPenaltyTonsCO2ePerKm : ℚ
deriving DecidableEq, Repr

/-- Source: `DEFAULT_SENSITIVITY_ASSUMPTIONS`
(0.000005, 0.03, 0.045, 90000, 1). -/
def DEFAULT_SENSITIVITY_ASSUMPTIONS : NormalizedSensitivityAssumptions :=
  { virginAggregateEmissionsPerKg := 5 / 10 ^ 6
    virginAggregateCostPerKg := 3 / 100
    landfillDisposalCostPerKg := 45 / 1000
    grinderCapitalCostUsd := 90000
    runsPerDay := 1 }

/-- Source: `DEFAULT_EXPEDITE_PENALTY_PROXY`. -/
def DEFAULT_EXPEDITE_PENALTY_PROXY : NormalizedPenaltyProxy :=
  { enabled := false
    specReadiness := 1
    lowSpecReadinessThreshold := 65 / 100
    readinessExponent := 2
    baseCostPenaltyUsd := 350
    baseEmissionsPenaltyTonsCO2e := 2 / 100
    haulDistanceThresholdKm := 40
    haulCostPenaltyUsdPerKm := 4
    haulEmissionsPenaltyTonsCO2ePerKm := 4 / 10 ^ 4 }

/-- Source: the `assumptions` half of `resolveNormalizedInput` — every field
is `payload.assumptions?.x ?? default` (the audit `assumptionsUsed` list of
description strings is presentation only and not embedded). -/
def resolveAssumptions (payload : SensitivityRequestPayload) :
    NormalizedSensitivityAssumptions :=
  { virginAggregateEmissionsPerKg :=
      ((payload.assumptions.bind fun a => a.virginAggregateEmissionsPerKg).getD
        DEFAULT_SENSITIVITY_ASSUMPTIONS.virginAggregateEmissionsPerKg)
    virginAggregateCostPerKg :=
      ((payload.assumptions.bind fun a => a.virginAggregateCostPerKg).getD
        DEFAULT_SENSITIVITY_ASSUMPTIONS.virginAggregateCostPerKg)
    landfillDisposalCostPerKg :=
      ((payload.assumptions.bind fun a => a.landfillDisposalCostPerKg).getD
        DEFAULT_SENSITIVITY_ASSUMPTIONS.landfillDisposalCostPerKg)
    grinderCapitalCostUsd :=
      ((payload.assumptions.bind fun a => a.grinderCapitalCostUsd).getD
        DEFAULT_SENSITIVITY_ASSUMPTIONS.grinderCapitalCostUsd)
    runsPerDay :=
      ((payload.assumptions.bind fun a => a.runsPerDay).getD
        DEFAULT_SENSITIVITY_ASSUMPTIONS.runsPerDay) }

/-- Source: the `penaltyProxy` half of `resolveNormalizedInput`. -/
def resolvePenaltyProxy (payload : SensitivityRequestPayload) : NormalizedPenaltyProxy :=
  { enabled :=
      ((payload.expeditePenaltyProxy.bind fun p => p.enabled).getD
        DEFAULT_EXPEDITE_PENALTY_PROXY.enabled)
    specReadiness :=
      ((payload.expeditePenaltyProxy.bind fun p => p.specReadiness).getD
        DEFAULT_EXPEDITE_PENALTY_PROXY.specReadiness)
    lowSpecReadinessThreshold :=
      ((payload.expeditePenaltyProxy.bind fun p => p.lowSpecReadinessThreshold).getD
        DEFAULT_EXPEDITE_PENALTY_PROXY.lowSpecReadinessThreshold)
    readinessExponent :=
      ((payload.expeditePenaltyProxy.bind fun p => p.readinessExponent).getD
        DEFAULT_EXPEDITE_PENALTY_PROXY.readinessExponent)
    baseCostPenaltyUsd :=
      ((payload.expeditePenaltyProxy.bind fun p => p.baseCostPenaltyUsd).getD
        DEFAULT_EXPEDITE_PENALTY_PROXY.baseCostPenaltyUsd)
    baseEmissionsPenaltyTonsCO2e :=
      ((payload.expeditePenaltyProxy.bind fun p => p.baseEmissionsPenaltyTonsCO2e).getD
        DEFAULT_EXPEDITE_PENALTY_PROXY.baseEmissionsPenaltyTonsCO2e)
    haulDistanceThresholdKm :=
      ((payload.expeditePenaltyProxy.bind fun p => p.haulDistanceThresholdKm).getD
        DEFAULT_EXPEDITE_PENALTY_PROXY.haulDistanceThresholdKm)
    haulCostPenaltyUsdPerKm :=
      ((payload.expeditePenaltyProxy.bind fun p => p.haulCostPenaltyUsdPerKm).getD
        DEFAULT_EXPEDITE_PENALTY_PROXY.haulCostPenaltyUsdPerKm)
    haulEmissionsPenaltyTonsCO2ePerKm :=
      ((payload.expeditePenaltyProxy.bind fun p => p.haulEmissionsPenaltyTonsCO2ePerKm).getD
        DEFAULT_EXPEDITE_PENALTY_PROXY.haulEmissionsPenaltyTonsCO2ePerKm) }

/-- Source: `expandRangeValues` — `steps = floor(span/step + EPSILON)` values
`round(start + idx*step)` for `idx = 0..steps`, the end value appended when it
is still more than `EPSILON` away, then `[...new Set(values)]`. -/
def expandRangeValues (input : NumericRange) : List ℚ :=
  let span := input.endValue - input.start
  let steps : ℕ := (⌊span / input.step + EPSILON⌋).toNat
  let values :=
    (List.range (steps + 1)).map fun idx => round6 (input.start + (idx : ℚ) * input.step)
  let values2 :=
    if input.endValue - (values.getLast?).getD 0 > EPSILON
    then values ++ [round6 input.endValue] else values
  dedupKeepFirst values2

/-- Source: `SensitivityPlotPoint`. -/
structure SensitivityPlotPoint where
  haulDistancePerTripKm : ℚ
  reuseUptakeRate : ℚ
  grinderUtilization : Option ℚ
  grinderThroughputKgPerHour : ℚ
  costDeltaUsd : ℚ
  emissionsAvoidedTonsCO2e : ℚ
  paybackDays : Option ℚ
deriving DecidableEq, Repr

/-- Source: `SensitivityPointDiagnostics`. -/
structure SensitivityPointDiagnostics where
  baselineVirginAggregateEmissionsTonsCO2e : ℚ
  scenarioVirginAggregateEmissionsTonsCO2e : ℚ
  baselineTotalCostUsd : ℚ
  scenarioTotalCostUsd : ℚ
  baselineTotalEmissionsTonsCO2e : ℚ
  scenarioTotalEmissionsTonsCO2e : ℚ
  baselineResidualKg : ℚ
  scenarioResidualKg : ℚ
  scenarioReuseKg : ℚ
  scenarioLandfillKg : ℚ
  baselineDisposalTrips : ℤ
  scenarioDisposalTrips : ℤ
  expeditePenaltyCostUsd : ℚ
  expeditePenaltyEmissionsTonsCO2e : ℚ
deriving DecidableEq, Repr

/-- Source: `SensitivityPointComputation`. -/
structure SensitivityPointComputation where
  point : SensitivityPlotPoint
  diagnostics : SensitivityPointDiagnostics
deriving DecidableEq, Repr

/-- Source: `SensitivityPointInput`. -/
structure SensitivityPointInput where
  haulDistancePerTripKm : ℚ
  reuseUptakeRate : ℚ
  grinderUtilization : Option ℚ
  grinderThroughputKgPerHour : ℚ
deriving DecidableEq, Repr

/-- Source: `SensitivityContext`. -/
structure SensitivityContext where
  unitOfWork : UnitOfWork
  costDrivers : CostDrivers
  sustainabilityDrivers : SustainabilityDrivers
  assumptions : NormalizedSensitivityAssumptions
  penaltyProxy : NormalizedPenaltyProxy
deriving DecidableEq, Repr

/-- Source: `ExpeditePenaltyResult` as a pair, and `computeExpeditePenaltyProxy`:
(costPenaltyUsd, emissionsPenaltyTonsCO2e), both exactly 0 when disabled. -/
def computeExpeditePenaltyProxy (haulDistancePerTripKm : ℚ)
    (proxy : NormalizedPenaltyProxy) : ℚ × ℚ :=
  if !proxy.enabled then (0, 0)
  else
    let thresholdBase := max proxy.lowSpecReadinessThreshold EPSILON
    let readinessGap := max 0 (proxy.lowSpecReadinessThreshold - proxy.specReadiness)
    let readinessFactor := (readinessGap / thresholdBase) ^ proxy.readinessExponent
    let haulExcessKm := max 0 (haulDistancePerTripKm - proxy.haulDistanceThresholdKm)
    let haulScale := 1 + haulExcessKm / max proxy.haulDistanceThresholdKm 1
    (proxy.baseCostPenaltyUsd * readinessFactor * haulScale +
       haulExcessKm * proxy.haulCostPenaltyUsdPerKm,
     proxy.baseEmissionsPenaltyTonsCO2e * readinessFactor * haulScale +
       haulExcessKm * proxy.haulEmissionsPenaltyTonsCO2ePerKm)

/-- Source: `toCoreUnitOfWork` — the unit of work handed to the simulator at a
grid point, with the point's haul distance. -/
def toCoreUnitOfWork (input : UnitOfWork) (haulDistancePerTripKm : ℚ) : UnitOfWork :=
  { inboundMaterial := input.inboundMaterial
    haulDistancePerTrip := haulDistancePerTripKm }

/-- Source: `toCoreCostDrivers` — the cost drivers with the grinder throughput
replaced by the grid point's effective throughput. -/
def toCoreCostDrivers (input : CostDrivers) (grinderThroughputKgPerHour : ℚ) : CostDrivers :=
  { input with grinderThroughputKgPerHour := grinderThroughputKgPerHour }

/-- The pure tail of `computeSensitivityPoint` after both simulations have
returned, line for line from the source. -/
def sensitivityPointBody (input : SensitivityPointInput) (context : SensitivityContext)
    (baselineSimulation scenarioSimulation : SimulationResult) :
    SensitivityPointComputation :=
  let inboundKg := context.unitOfWork.inboundMaterial
  let truckCapacityKg := context.costDrivers.truckCapacity
  let baselineRecoveredKg := baselineSimulation.materialRecovered
  let scenarioRecoveredKg := scenarioSimulation.materialRecovered
  let baselineResidualKg := max 0 (inboundKg - baselineRecoveredKg)
  let scenarioResidualKg := max 0 (inboundKg - scenarioRecoveredKg)
  let scenarioReuseKg := scenarioResidualKg * input.reuseUptakeRate
  let scenarioLandfillKg := max 0 (scenarioResidualKg - scenarioReuseKg)
  let baselineDisposalTrips : ℤ := ⌈baselineResidualKg / truckCapacityKg⌉
  let scenarioDisposalTrips : ℤ := ⌈scenarioLandfillKg / truckCapacityKg⌉
  let baselineDisposalDistanceKm := (baselineDisposalTrips : ℚ) * input.haulDistancePerTripKm
  let scenarioDisposalDistanceKm := (scenarioDisposalTrips : ℚ) * input.haulDistancePerTripKm
  let baselineDisposalHaulCostUsd := baselineDisposalDistanceKm * context.costDrivers.haulCostPerKm
  let scenarioDisposalHaulCostUsd := scenarioDisposalDistanceKm * context.costDrivers.haulCostPerKm
  let baselineDisposalHaulEmissionsTonsCO2e :=
    baselineDisposalDistanceKm * context.sustainabilityDrivers.haulEmissionsPerKm
  let scenarioDisposalHaulEmissionsTonsCO2e :=
    scenarioDisposalDistanceKm * context.sustainabilityDrivers.haulEmissionsPerKm
  let baselineVirginAggregateKg := inboundKg
  let scenarioVirginAggregateKg := max 0 (inboundKg - scenarioReuseKg)
  let baselineVirginAggregateEmissionsTonsCO2e :=
    baselineVirginAggregateKg * context.assumptions.virginAggregateEmissionsPerKg
  let scenarioVirginAggregateEmissionsTonsCO2e :=
    scenarioVirginAggregateKg * context.assumptions.virginAggregateEmissionsPerKg
  let baselineVirginAggregateCostUsd :=
    baselineVirginAggregateKg * context.assumptions.virginAggregateCostPerKg
  let scenarioVirginAggregateCostUsd :=
    scenarioVirginAggregateKg * context.assumptions.virginAggregateCostPerKg
  let baselineDisposalCostUsd := baselineResidualKg * context.assumptions.landfillDisposalCostPerKg
  let scenarioDisposalCostUsd := scenarioLandfillKg * context.assumptions.landfillDisposalCostPerKg
  let expeditePenalty := computeExpeditePenaltyProxy input.haulDistancePerTripKm context.penaltyProxy
  let baselineTotalCostUsd :=
    baselineSimulation.totalCost + baselineDisposalHaulCostUsd +
      baselineDisposalCostUsd + baselineVirginAggregateCostUsd
  let scenarioTotalCostUsd :=
    scenarioSimulation.totalCost + scenarioDisposalHaulCostUsd +
      scenarioDisposalCostUsd + scenarioVirginAggregateCostUsd + expeditePenalty.1
  let baselineTotalEmissionsTonsCO2e :=
    baselineSimulation.totalEmissions + baselineDisposalHaulEmissionsTonsCO2e +
      baselineVirginAggregateEmissionsTonsCO2e
  let scenarioTotalEmissionsTonsCO2e :=
    scenarioSimulation.totalEmissions + scenarioDisposalHaulEmissionsTonsCO2e +
      scenarioVirginAggregateEmissionsTonsCO2e + expeditePenalty.2
  let costDeltaUsd := scenarioTotalCostUsd - baselineTotalCostUsd
  let emissionsAvoidedTonsCO2e := baselineTotalEmissionsTonsCO2e - scenarioTotalEmissionsTonsCO2e
  let dailySavingsUsd := (baselineTotalCostUsd - scenarioTotalCostUsd) * context.assumptions.runsPerDay
  let paybackDays : Option ℚ :=
    if dailySavingsUsd > 0 then some (context.assumptions.grinderCapitalCostUsd / dailySavingsUsd)
    else none
  { point :=
      { haulDistancePerTripKm := round6 input.haulDistancePerTripKm
        reuseUptakeRate := round6 input.reuseUptakeRate
        grinderUtilization := input.grinderUtilization.map round6
        grinderThroughputKgPerHour := round6 input.grinderThroughputKgPerHour
        costDeltaUsd := round6 costDeltaUsd
        emissionsAvoidedTonsCO2e := round6 emissionsAvoidedTonsCO2e
        paybackDays := roundNullable paybackDays }
    diagnostics :=
      { baselineVirginAggregateEmissionsTonsCO2e := round6 baselineVirginAggregateEmissionsTonsCO2e
        scenarioVirginAggregateEmissionsTonsCO2e := round6 scenarioVirginAggregateEmissionsTonsCO2e
        baselineTotalCostUsd := round6 baselineTotalCostUsd
        scenarioTotalCostUsd := round6 scenarioTotalCostUsd
        baselineTotalEmissionsTonsCO2e := round6 baselineTotalEmissionsTonsCO2e
        scenarioTotalEmissionsTonsCO2e := round6 scenarioTotalEmissionsTonsCO2e
        baselineResidualKg := round6 baselineResidualKg
        scenarioResidualKg := round6 scenarioResidualKg
        scenarioReuseKg := round6 scenarioReuseKg
        scenarioLandfillKg := round6 scenarioLandfillKg
        baselineDisposalTrips := baselineDisposalTrips
        scenarioDisposalTrips := scenarioDisposalTrips
        expeditePenaltyCostUsd := round6 expeditePenalty.1
        expeditePenaltyEmissionsTonsCO2e := round6 expeditePenalty.2 } }

/-- Source: `computeSensitivityPoint` — one crusher (baseline) and one grinder
(scenario) simulation with the explicitly passed default speed 50 and
load/unload 0.25, then the pure accounting body. -/
def computeSensitivityPoint (input : SensitivityPointInput) (context : SensitivityContext) :
    Except String SensitivityPointComputation := do
  let unitOfWork := toCoreUnitOfWork context.unitOfWork input.haulDistancePerTripKm
  let costDrivers := toCoreCostDrivers context.costDrivers input.grinderThroughputKgPerHour
  let baselineSimulation ← simulatePanelFlow unitOfWork costDrivers
    context.sustainabilityDrivers
    { useCrusher := true
      truckSpeedKmPerHour := some DEFAULT_TRUCK_SPEED_KM_PER_HOUR
      loadUnloadHoursPerTrip := some DEFAULT_LOAD_UNLOAD_HOURS_PER_TRIP }
  let scenarioSimulation ← simulatePanelFlow unitOfWork costDrivers
    context.sustainabilityDrivers
    { useCrusher := false
      truckSpeedKmPerHour := some DEFAULT_TRUCK_SPEED_KM_PER_HOUR
      loadUnloadHoursPerTrip := some DEFAULT_LOAD_UNLOAD_HOURS_PER_TRIP }
  .ok (sensitivityPointBody input context baselineSimulation scenarioSimulation)

/-- The axis mode selected by `buildSensitivityGrid` from the payload. -/
def axisModeOf (payload : SensitivityRequestPayload) : GrinderAxisMode :=
  match payload.ranges.grinderAxis with
  | .utilization _ => .utilization
  | .throughput _ => .throughput

/-- The grinder-axis range the payload carries. -/
def grinderAxisRange (payload : SensitivityRequestPayload) : NumericRange :=
  match payload.ranges.grinderAxis with
  | .utilization range => range
  | .throughput range => range

/-- The number of grid cells: the product of the three expanded axis lengths. -/
def gridPointCount (payload : SensitivityRequestPayload) : ℕ :=
  (expandRangeValues payload.ranges.haulDistancePerTrip).length *
    ((expandRangeValues payload.ranges.reuseUptakeRate).length *
      (expandRangeValues (grinderAxisRange payload)).length)

/-- Source: the `context` record built inside `buildSensitivityGrid`. -/
def mkSensitivityContext (payload : SensitivityRequestPayload) : SensitivityContext :=
  { unitOfWork := payload.unitOfWork
    costDrivers := payload.costDrivers
    sustainabilityDrivers := payload.sustainabilityDrivers
    assumptions := resolveAssumptions payload
    penaltyProxy := resolvePenaltyProxy payload }

/-- The triple loop of `buildSensitivityGrid` in its documented order
(haul distance outer, reuse rate middle, grinder axis inner), producing the
per-point inputs; in utilization mode the effective throughput is
`nominal * axis value`. -/
def gridInputList (payload : SensitivityRequestPayload)
    (haulDistanceValues reuseValues grinderAxisValues : List ℚ) :
    List SensitivityPointInput :=
  haulDistanceValues.flatMap fun haulDistancePerTripKm =>
    reuseValues.flatMap fun reuseUptakeRate =>
      grinderAxisValues.map fun grinderAxisValue =>
        match axisModeOf payload with
        | .utilization =>
            { haulDistancePerTripKm := haulDistancePerTripKm
              reuseUptakeRate := reuseUptakeRate
              grinderUtilization := some grinderAxisValue
              grinderThroughputKgPerHour :=
                payload.costDrivers.grinderThroughputKgPerHour * grinderAxisValue }
        | .throughput =>
            { haulDistancePerTripKm := haulDistancePerTripKm
              reuseUptakeRate := reuseUptakeRate
              grinderUtilization := none
              grinderThroughputKgPerHour := grinderAxisValue }

/-- `List.mapM` over `Except`, written out so its length/ok lemmas are plain
structural inductions (the source's `for … of` loop with `points.push`). -/
def mapExcept {α β : Type} (f : α → Except String β) : List α → Except String (List β)
  | [] => .ok []
  | a :: rest => do
      let b ← f a
      let bs ← mapExcept f rest
      .ok (b :: bs)

/-- Source: `SensitivityGridResult` (the audit `assumptionsUsed` strings are
presentation only and not embedded). -/
structure SensitivityGridResult where
  axisMode : GrinderAxisMode
  haulDistanceAxis : List ℚ
  reuseUptakeAxis : List ℚ
  grinderAxisValues : List ℚ
  points : List SensitivityPointComputation
  penaltyProxy : NormalizedPenaltyProxy
deriving DecidableEq, Repr

/-- The `Grid too large` message of the source for a given point count. -/
def gridTooLargeMessage (count : ℕ) : String :=
  "Grid too large: " ++ toString count ++ " points exceeds limit " ++ toString MAX_GRID_POINTS

/-- Source: `buildSensitivityGrid` — expand the three axes, reject oversized
grids before any simulation runs, then simulate every grid cell in order. -/
def buildSensitivityGrid (payload : SensitivityRequestPayload) :
    Except String SensitivityGridResult :=
  let haulDistanceValues := expandRangeValues payload.ranges.haulDistancePerTrip
  let reuseValues := expandRangeValues payload.ranges.reuseUptakeRate
  let grinderAxisValues := expandRangeValues (grinderAxisRange payload)
  let count := haulDistanceValues.length * (reuseValues.length * grinderAxisValues.length)
  if count > MAX_GRID_POINTS then .error (gridTooLargeMessage count)
  else do
    let context := mkSensitivityContext payload
    let points ← mapExcept (fun input => computeSensitivityPoint input context)
      (gridInputList payload haulDistanceValues reuseValues grinderAxisValues)
    .ok { axisMode := axisModeOf payload
          haulDistanceAxis := haulDistanceValues
          reuseUptakeAxis := reuseValues
          grinderAxisValues := grinderAxisValues
          points := points
          penaltyProxy := resolvePenaltyProxy payload }

end Rainier
namespace Rainier

/-! ### Test fixtures from the repository's test files -/

/-- The unit of work of the known simulation scenario (test files). -/
def knownUnitOfWork : UnitOfWork := ⟨10000, 30⟩

/-- The cost drivers shared by the repository's tests. -/
def knownCostDrivers : CostDrivers := ⟨2000, 3, 40, 1 / 50, 3 / 100, 2500, 2000⟩

/-- The sustainability drivers shared by the repository's tests
(`haulEmissionsPerKm = 0.001`). -/
def knownSustainabilityDrivers : SustainabilityDrivers :=
  ⟨1 / 1000, 4 / 100000, 6 / 100000, 82 / 100, 3 / 4⟩

/-- The crusher options of the known scenario: speed 60, load/unload 0.5. -/
def knownScenarioOptions : SimulationOptions := ⟨true, some 60, some (1 / 2)⟩

/-- Cost drivers with every per-unit cost negative: the spec's CostDrivers
invariant is violated, yet `simulatePanelFlow` never inspects these fields. -/
def negativeCostDrivers : CostDrivers :=
  { knownCostDrivers with
      haulCostPerKm := -3
      laborCostPerHour := -40
      crusherProcessingCostPerKg := -(1 / 50)
      grinderProcessingCostPerKg := -(3 / 100) }

/-- The KPI test's simulation result (grinder variant: cost 1120, 9.25 h,
0.75 tCO2e, 5 trips, 7500 kg), with `totalEmissions` raised to 3 as in the
floors-at-zero test. -/
def kpiFloorSimulationResult : SimulationResult := ⟨1120, 37 / 4, 3, 5, 7500⟩

/-- The KPI floor test's override: `co2AvoidedPerKgRecovered = 0.0001`. -/
def kpiFloorOverrides : EnvironmentalKpiFactorOverrides :=
  { co2AvoidedPerKgRecovered := some (1 / 10000) }

/-- The investment test file's `makeSimulationResult`: a result whose only
varying field is `totalCost` (1 h, 0 tCO2e, 1 trip, 1000 kg). -/
def makeSimulationResult (totalCostValue : ℚ) : SimulationResult :=
  ⟨totalCostValue, 1, 0, 1, 1000⟩

/-- The repository's `evaluateInvestment` test input: baseline revenue 120 at
cost 100 over periods 1..3, grinder purchase of 100 with revenue 170 at cost
80 over periods 1..3, discount rate 0.1. -/
def investmentTestInput : EvaluateInvestmentInput :=
  { discountRate := 1 / 10
    baseline :=
      { points := [⟨1, makeSimulationResult 100, 120, none⟩,
                   ⟨2, makeSimulationResult 100, 120, none⟩,
                   ⟨3, makeSimulationResult 100, 120, none⟩] }
    grinderPurchase :=
      { points := [⟨1, makeSimulationResult 80, 170, none⟩,
                   ⟨2, makeSimulationResult 80, 170, none⟩,
                   ⟨3, makeSimulationResult 80, 170, none⟩]
        initialInvestment := some 100 } }

/-- A scenario pair whose points sit only at periods 1 and 3 — the gap at
period 2 is the claim's own example. -/
def gapInput : EvaluateInvestmentInput :=
  { discountRate := 1
    baseline :=
      { points := [⟨1, makeSimulationResult 0, 10, none⟩,
                   ⟨3, makeSimulationResult 0, 20, none⟩] }
    grinderPurchase :=
      { points := [⟨1, makeSimulationResult 0, 10, none⟩,
                   ⟨3, makeSimulationResult 0, 20, none⟩] } }

end Rainier

namespace Rainier

/-- Success test on `Except` (the embedding's notion of "did not throw"). -/
def exceptIsOk {ε α : Type} : Except ε α → Bool
  | .ok _ => true
  | .error _ => false

/-- An over-limit sensitivity request: 14 × 14 × 14 = 2744 grid points. -/
def bigSensitivityPayload : SensitivityRequestPayload :=
  { unitOfWork := knownUnitOfWork
    costDrivers := knownCostDrivers
    sustainabilityDrivers := knownSustainabilityDrivers
    ranges :=
      { haulDistancePerTrip := ⟨1, 14, 1⟩
        reuseUptakeRate := ⟨0, 13 / 100, 1 / 100⟩
        grinderAxis := .utilization ⟨0, 13 / 100, 1 / 100⟩ } }

/-- The monotonicity test's context: the shared drivers with all assumption
and penalty-proxy defaults. -/
def monotonicityContext : SensitivityContext :=
  { unitOfWork := knownUnitOfWork
    costDrivers := knownCostDrivers
    sustainabilityDrivers := knownSustainabilityDrivers
    assumptions := DEFAULT_SENSITIVITY_ASSUMPTIONS
    penaltyProxy := DEFAULT_EXPEDITE_PENALTY_PROXY }

/-- A small sensitivity request: 1 × 2 × 1 = 2 grid points. -/
def smallSensitivityPayload : SensitivityRequestPayload :=
  { unitOfWork := knownUnitOfWork
    costDrivers := knownCostDrivers
    sustainabilityDrivers := knownSustainabilityDrivers
    ranges :=
      { haulDistancePerTrip := ⟨30, 30, 1⟩
        reuseUptakeRate := ⟨0, 1, 1⟩
        grinderAxis := .utilization ⟨1, 1, 1 / 10⟩ } }

end Rainier

namespace Rainier

/-- Helper: `simulatePanelFlow` returns a result exactly when every invariant
it checks holds; shared by several claims below. -/
theorem simulatePanelFlow_ok_iff (u : UnitOfWork) (c : CostDrivers)
    (s : SustainabilityDrivers) (o : SimulationOptions) :
    (∃ result, simulatePanelFlow u c s o = Except.ok result) ↔
      (0 < o.truckSpeedKmPerHour.getD DEFAULT_TRUCK_SPEED_KM_PER_HOUR ∧
       0 < o.loadUnloadHoursPerTrip.getD DEFAULT_LOAD_UNLOAD_HOURS_PER_TRIP ∧
       0 < c.truckCapacity ∧ 0 < u.inboundMaterial ∧ 0 < u.haulDistancePerTrip ∧
       (0 ≤ s.crusherRecoveryRate ∧ s.crusherRecoveryRate ≤ 1) ∧
       (0 ≤ s.grinderRecoveryRate ∧ s.grinderRecoveryRate ≤ 1) ∧
       0 < (if o.useCrusher then c.crusherThroughputKgPerHour
            else c.grinderThroughputKgPerHour)) := by
  constructor
  · rintro ⟨r, hr⟩
    simp only [simulatePanelFlow] at hr
    split_ifs at hr with h1 h2 h3 h4 h5 h6 h7 h8
    all_goals simp_all [not_le, not_lt, not_or]
  · rintro ⟨p1, p2, p3, p4, p5, ⟨p6a, p6b⟩, ⟨p7a, p7b⟩, p8⟩
    simp only [simulatePanelFlow]
    rw [if_neg (not_le.mpr p1), if_neg (not_le.mpr p2), if_neg (not_le.mpr p3),
      if_neg (not_le.mpr p4), if_neg (not_le.mpr p5),
      if_neg (by push_neg; exact ⟨p6a, p6b⟩), if_neg (by push_neg; exact ⟨p7a, p7b⟩),
      if_neg (not_le.mpr p8)]
    exact ⟨_, rfl⟩

end Rainier
namespace Rainier

/-- Helper: the trips field of any successful simulation is the ceiling of
inbound material over truck capacity. -/
theorem simulatePanelFlow_truckTrips (u : UnitOfWork) (c : CostDrivers)
    (s : SustainabilityDrivers) (o : SimulationOptions) (result : SimulationResult)
    (h : simulatePanelFlow u c s o = Except.ok result) :
    result.truckTrips = ⌈u.inboundMaterial / c.truckCapacity⌉ := by
  simp only [simulatePanelFlow] at h
  split_ifs at h
  all_goals first
    | exact Except.noConfusion h
    | (injection h with h; subst h; rfl)

/-- C8: for every input that passes validation, `simulatePanelFlow` returns
`truckTrips = ⌈inboundMaterial / truckCapacity⌉` — a whole number of trips,
with a partial final load consuming a full trip. -/
theorem claim8_truckTrips_ceiling (u : UnitOfWork) (c : CostDrivers)
    (s : SustainabilityDrivers) (o : SimulationOptions) (result : SimulationResult)
    (h : simulatePanelFlow u c s o = Except.ok result) :
    result.truckTrips = ⌈u.inboundMaterial / c.truckCapacity⌉ :=
  simulatePanelFlow_truckTrips u c s o result h

end Rainier

section ConcreteEval1

attribute [local semireducible] Rat.add Rat.mul Rat.sub Rat.inv Rat.ofScientific

namespace Rainier

/-- C8 witness: the trip-rounding example — inbound 2001 kg on 2000 kg trucks
makes the simulation return 2 trips, which the claim theorem equates with
`⌈2001/2000⌉`. -/
theorem claim8_truckTrips_ceiling_witness : (2 : ℤ) = ⌈(2001 : ℚ) / 2000⌉ :=
  claim8_truckTrips_ceiling ⟨2001, 10⟩ knownCostDrivers knownSustainabilityDrivers
    ⟨true, some 50, some (1 / 4)⟩
    ⟨42009 / 250, 4251 / 2500, 2501 / 25000, 2, 82041 / 50⟩ (by decide)

/-- C3: the known simulation scenario (inbound 10000 kg, haul 30 km, capacity
2000 kg, haul cost 3, labor 40, crusher mode with cost 0.02, throughput 2500,
recovery 0.82, processing emissions 0.00004, truck speed 60, load/unload 0.5,
and the test suite's `haulEmissionsPerKm = 0.001`) returns exactly
`truckTrips = 5`, `totalTime = 9`, `totalCost = 1010`,
`totalEmissions = 0.55` and `materialRecovered = 8200`. -/
theorem claim3_known_scenario :
    simulatePanelFlow knownUnitOfWork knownCostDrivers knownSustainabilityDrivers
      knownScenarioOptions =
      Except.ok { totalCost := 1010, totalTime := 9, totalEmissions := 11 / 20,
                  truckTrips := 5, materialRecovered := 8200 } := by decide

end Rainier

end ConcreteEval1
namespace Rainier

/-- C2 (amended): `simulatePanelFlow` fails with a validation error exactly
when one of the invariants it actually checks is violated — resolved truck
speed, resolved load/unload hours, truck capacity, inbound material and haul
distance must be > 0, both recovery rates must lie in [0,1], and the
mode-selected throughput must be > 0.  The per-unit costs (`haulCostPerKm`,
`laborCostPerHour`, the processing costs per kg) are not validated, so
negative values there still produce a `SimulationResult`. -/
theorem claim2_validation_amended (u : UnitOfWork) (c : CostDrivers)
    (s : SustainabilityDrivers) (o : SimulationOptions) :
    (∃ result, simulatePanelFlow u c s o = Except.ok result) ↔
      (0 < o.truckSpeedKmPerHour.getD DEFAULT_TRUCK_SPEED_KM_PER_HOUR ∧
       0 < o.loadUnloadHoursPerTrip.getD DEFAULT_LOAD_UNLOAD_HOURS_PER_TRIP ∧
       0 < c.truckCapacity ∧ 0 < u.inboundMaterial ∧ 0 < u.haulDistancePerTrip ∧
       (0 ≤ s.crusherRecoveryRate ∧ s.crusherRecoveryRate ≤ 1) ∧
       (0 ≤ s.grinderRecoveryRate ∧ s.grinderRecoveryRate ≤ 1) ∧
       0 < (if o.useCrusher then c.crusherThroughputKgPerHour
            else c.grinderThroughputKgPerHour)) :=
  simulatePanelFlow_ok_iff u c s o

/-- C9: for every simulation result and every override set whose resolved
factors are non-negative, `computeCO2Avoided` returns
`max(0, materialRecovered · co2AvoidedPerKgRecovered − totalEmissions)`, and
returns exactly 0 — never a negative value — whenever the gross avoided
emissions fall short of the operational emissions. -/
theorem claim9_co2_avoided_floor (simulationResult : SimulationResult)
    (overrides : EnvironmentalKpiFactorOverrides)
    (h1 : 0 ≤ (resolvedFactors overrides).co2AvoidedPerKgRecovered)
    (h2 : 0 ≤ (resolvedFactors overrides).carbonCapturePotentialPerKgRecovered)
    (h3 : 0 ≤ (resolvedFactors overrides).baselineTruckMilesPerTrip)
    (h4 : 0 ≤ (resolvedFactors overrides).optimizedTruckMilesPerTrip) :
    computeCO2Avoided simulationResult overrides =
      Except.ok (max 0 (simulationResult.materialRecovered *
        (resolvedFactors overrides).co2AvoidedPerKgRecovered -
          simulationResult.totalEmissions)) ∧
    (simulationResult.materialRecovered *
        (resolvedFactors overrides).co2AvoidedPerKgRecovered <
        simulationResult.totalEmissions →
      computeCO2Avoided simulationResult overrides = Except.ok 0) := by
  have hmain : computeCO2Avoided simulationResult overrides =
      Except.ok (max 0 (simulationResult.materialRecovered *
        (resolvedFactors overrides).co2AvoidedPerKgRecovered -
          simulationResult.totalEmissions)) := by
    simp only [computeCO2Avoided]
    rw [if_neg (not_lt.mpr h1), if_neg (not_lt.mpr h2),
      if_neg (by push_neg; exact ⟨h3, h4⟩)]
  refine ⟨hmain, fun hlt => ?_⟩
  rw [hmain, max_eq_left (sub_nonpos.mpr (le_of_lt hlt))]

end Rainier

section ConcreteEval2

attribute [local semireducible] Rat.add Rat.mul Rat.sub Rat.inv Rat.ofScientific

namespace Rainier

/-- C2 counterexample: with `haulCostPerKm = −3`, `laborCostPerHour = −40`
and negative processing costs per kg — all violating the spec's CostDrivers
invariant — `simulatePanelFlow` still returns a `SimulationResult` instead of
failing with a validation error. -/
theorem claim2_counterexample :
    negativeCostDrivers.haulCostPerKm < 0 ∧
    negativeCostDrivers.laborCostPerHour < 0 ∧
    negativeCostDrivers.crusherProcessingCostPerKg < 0 ∧
    ∃ result, simulatePanelFlow knownUnitOfWork negativeCostDrivers
      knownSustainabilityDrivers knownScenarioOptions = Except.ok result :=
  ⟨by decide, by decide, by decide,
    (simulatePanelFlow_ok_iff knownUnitOfWork negativeCostDrivers
      knownSustainabilityDrivers knownScenarioOptions).mpr (by decide)⟩

/-- C9 witness: on the KPI floor test's inputs — recovered 7500 kg at factor
0.0001 against 3 tCO2e operational emissions — the claim theorem returns
exactly 0. -/
theorem claim9_co2_avoided_floor_witness :
    computeCO2Avoided kpiFloorSimulationResult kpiFloorOverrides = Except.ok 0 :=
  (claim9_co2_avoided_floor kpiFloorSimulationResult kpiFloorOverrides
    (by decide) (by decide) (by decide) (by decide)).2 (by decide)

end Rainier

end ConcreteEval2
section ConcreteEval3

attribute [local semireducible] Rat.add Rat.mul Rat.sub Rat.inv Rat.ofScientific

namespace Rainier

/-- Helper: the spec's fractional payback example, evaluated exactly. -/
theorem payback_example_fractional : PaybackPeriod [-100, 40, 40, 40] = some (5 / 2) := by
  decide

/-- Helper: the spec's never-paid-back example, evaluated exactly. -/
theorem payback_example_never : PaybackPeriod [-100, 10, 10, 10] = none := by decide

end Rainier

end ConcreteEval3

namespace Rainier

/-- Helper: the payback loop returns `none` when the running cumulative sum
stays negative to the end of the series. -/
theorem paybackLoop_none (rest : List ℚ) : ∀ (i : ℕ) (cum : ℚ),
    (∀ k, k < rest.length → cum + (rest.take (k + 1)).sum < 0) →
    paybackLoop rest i cum = none := by
  induction rest with
  | nil => intro i cum _; rfl
  | cons c rest ih =>
    intro i cum h
    have h0 := h 0 (by simp)
    simp only [List.take_succ_cons, List.take_zero, List.sum_cons, List.sum_nil,
      add_zero] at h0
    simp only [paybackLoop]
    rw [if_neg (by linarith)]
    exact ih (i + 1) (cum + c) fun k hk => by
      have hk1 := h (k + 1) (by simpa using Nat.succ_lt_succ hk)
      simpa [List.take_succ_cons, add_assoc] using hk1

/-- Helper: when the cumulative sum first reaches ≥ 0 at offset `k`, the
payback loop returns the source's integer-or-interpolated period. -/
theorem paybackLoop_cross (rest : List ℚ) : ∀ (i : ℕ) (cum : ℚ) (k : ℕ),
    k < rest.length →
    (∀ j, j < k → cum + (rest.take (j + 1)).sum < 0) →
    0 ≤ cum + (rest.take (k + 1)).sum →
    paybackLoop rest i cum = some (
      if rest.getD k 0 ≤ 0 then ((i + k : ℕ) : ℚ)
      else ((i + k : ℕ) : ℚ) - 1 + -(cum + (rest.take k).sum) / rest.getD k 0) := by
  induction rest with
  | nil => intro i cum k hk; exact absurd hk (by simp)
  | cons c rest ih =>
    intro i cum k hk hbefore hcross
    match k with
    | 0 =>
      simp only [List.take_succ_cons, List.take_zero, List.sum_cons, List.sum_nil,
        add_zero] at hcross
      simp only [paybackLoop, List.getD_cons_zero, List.take_zero, List.sum_nil,
        add_zero, Nat.add_zero]
      rw [if_pos hcross]
      split_ifs <;> rfl
    | k + 1 =>
      have h0 := hbefore 0 (Nat.succ_pos k)
      simp only [List.take_succ_cons, List.take_zero, List.sum_cons, List.sum_nil,
        add_zero] at h0
      simp only [paybackLoop]
      rw [if_neg (by linarith)]
      have hrec := ih (i + 1) (cum + c) k (by simpa using hk)
        (fun j hj => by
          have := hbefore (j + 1) (Nat.succ_lt_succ hj)
          simpa [List.take_succ_cons, add_assoc] using this)
        (by simpa [List.take_succ_cons, add_assoc] using hcross)
      rw [hrec]
      have hidx : i + 1 + k = i + (k + 1) := by omega
      simp only [List.getD_cons_succ, List.take_succ_cons, List.sum_cons, hidx,
        add_assoc]

/-- C7: `PaybackPeriod` returns 0 when the period-0 flow is already ≥ 0; at
the first period `i` whose cumulative sum reaches ≥ 0 it returns the integer
`i` when that period's flow is ≤ 0 and otherwise
`(i−1) + (−cumulative_before / flow_i)`; it returns `null` when the cumulative
sum never reaches ≥ 0; and on the spec's examples
`PaybackPeriod [-100,40,40,40] = 2.5`, `PaybackPeriod [-100,10,10,10] = null`. -/
theorem claim7_payback_period :
    (∀ (first : ℚ) (rest : List ℚ), 0 ≤ first →
      PaybackPeriod (first :: rest) = some 0) ∧
    (∀ (cashFlows : List ℚ) (i : ℕ), 1 ≤ i → i < cashFlows.length →
      (∀ j, j < i → (cashFlows.take (j + 1)).sum < 0) →
      0 ≤ (cashFlows.take (i + 1)).sum →
      PaybackPeriod cashFlows = some (
        if cashFlows.getD i 0 ≤ 0 then (i : ℚ)
        else (i : ℚ) - 1 + -((cashFlows.take i).sum) / cashFlows.getD i 0)) ∧
    (∀ cashFlows : List ℚ,
      (∀ k, k < cashFlows.length → (cashFlows.take (k + 1)).sum < 0) →
      PaybackPeriod cashFlows = none) ∧
    PaybackPeriod [-100, 40, 40, 40] = some (5 / 2) ∧
    PaybackPeriod [-100, 10, 10, 10] = none := by
  refine ⟨?_, ?_, ?_, ?_, ?_⟩
  · intro first rest h
    simp only [PaybackPeriod]
    rw [if_pos h]
  · rintro (_ | ⟨first, rest⟩) i hi hlen hbefore hcross
    · exact absurd hlen (by simp)
    · have hfirst := hbefore 0 (by omega)
      simp only [List.take_succ_cons, List.take_zero, List.sum_cons, List.sum_nil,
        add_zero] at hfirst
      simp only [PaybackPeriod]
      rw [if_neg (not_le.mpr hfirst)]
      obtain ⟨k, rfl⟩ : ∃ k, i = k + 1 := ⟨i - 1, by omega⟩
      have hk : k < rest.length := by simpa using hlen
      have hres := paybackLoop_cross rest 1 first k hk
        (fun j hj => by
          have := hbefore (j + 1) (by omega)
          simpa [List.take_succ_cons, add_assoc] using this)
        (by simpa [List.take_succ_cons, add_assoc] using hcross)
      rw [hres]
      have hidx : 1 + k = k + 1 := by omega
      simp only [List.getD_cons_succ, List.take_succ_cons, List.sum_cons, hidx,
        add_assoc]
  · rintro (_ | ⟨first, rest⟩) h
    · rfl
    · have hfirst := h 0 (by simp)
      simp only [List.take_succ_cons, List.take_zero, List.sum_cons, List.sum_nil,
        add_zero] at hfirst
      simp only [PaybackPeriod]
      rw [if_neg (not_le.mpr hfirst)]
      exact paybackLoop_none rest 1 first fun k hk => by
        have := h (k + 1) (by simpa using Nat.succ_lt_succ hk)
        simpa [List.take_succ_cons, add_assoc] using this
  · exact payback_example_fractional
  · exact payback_example_never

end Rainier
section ConcreteEval4

attribute [local semireducible] Rat.add Rat.mul Rat.sub Rat.inv Rat.ofScientific

namespace Rainier

/-- C7 witness: the claim theorem applied to the crossing at period 3 of
`[-100, 40, 40, 40]` (interpolating to 2.5) and to `[5, 3]` whose period-0
flow is already non-negative. -/
theorem claim7_payback_period_witness :
    PaybackPeriod [-100, 40, 40, 40] = some (5 / 2) ∧ PaybackPeriod [5, 3] = some 0 := by
  constructor
  · have h := claim7_payback_period.2.1 [-100, 40, 40, 40] 3 (by norm_num) (by decide)
      (by decide) (by decide)
    rw [h]; decide
  · exact claim7_payback_period.1 5 [3] (by norm_num)

end Rainier

end ConcreteEval4
namespace Rainier

/-- Helper: bind on `Except` applied to a success reduces by definition. -/
@[simp] theorem exceptBind_ok {ε α β : Type} (a : α) (f : α → Except ε β) :
    (Except.ok a >>= f : Except ε β) = f a := rfl

/-- Helper: `NPV` succeeds at every rate above −1. -/
theorem NPV_ok (discountRate : ℚ) (cashFlows : List ℚ) (h : -1 < discountRate) :
    NPV discountRate cashFlows = Except.ok (NPVval discountRate cashFlows) := by
  simp only [NPV]
  rw [if_neg (not_le.mpr h)]

/-- Helper: starting from an upper bracket end ≥ 1, the doubling search only
ever evaluates `NPV` at rates ≥ 1 and returns an upper end between the start
and `start · 2^fuel`. -/
theorem expandHigh_spec (cashFlows : List ℚ) (fLow : ℚ) :
    ∀ (fuel : ℕ) (high fHigh : ℚ), 1 ≤ high →
    ∃ high2 fHigh2, expandHigh cashFlows fLow fuel high fHigh = .ok (high2, fHigh2) ∧
      high ≤ high2 ∧ high2 ≤ high * 2 ^ fuel := by
  intro fuel
  induction fuel with
  | zero =>
    intro high fHigh h
    exact ⟨high, fHigh, rfl, le_refl _, by simp⟩
  | succ fuel ih =>
    intro high fHigh h
    simp only [expandHigh]
    split_ifs with hcond
    · rw [NPV_ok _ _ (by linarith)]
      simp only [exceptBind_ok]
      obtain ⟨high2, fHigh2, heq, hle, hub⟩ :=
        ih (high * 2) (NPVval (high * 2) cashFlows) (by linarith)
      refine ⟨high2, fHigh2, heq, by linarith, ?_⟩
      calc high2 ≤ high * 2 * 2 ^ fuel := hub
        _ = high * 2 ^ (fuel + 1) := by ring
    · refine ⟨high, fHigh, rfl, le_refl _, ?_⟩
      have hpow : (1 : ℚ) ≤ 2 ^ (fuel + 1) := one_le_pow₀ (by norm_num)
      nlinarith

/-- Helper: the bisection loop keeps the bracket inside
`[-0.9999, 2^20]`, evaluates `NPV` only at midpoints of such brackets (all
above −1), and returns a point of the final bracket. -/
theorem bisect_spec (cashFlows : List ℚ) (tolerance : ℚ) :
    ∀ (fuel : ℕ) (low high fLow fHigh : ℚ),
    -(9999 / 10000) ≤ low → low ≤ high → high ≤ 2 ^ 20 →
    ∃ root, bisect cashFlows tolerance fuel low high fLow fHigh = .ok root ∧
      -(9999 / 10000) ≤ root ∧ root ≤ 2 ^ 20 := by
  intro fuel
  induction fuel with
  | zero =>
    intro low high fLow fHigh hlo hle hhi
    exact ⟨(low + high) / 2, rfl, by linarith, by linarith⟩
  | succ fuel ih =>
    intro low high fLow fHigh hlo hle hhi
    have hmidlo : -(9999 / 10000) ≤ (low + high) / 2 := by linarith
    have hmidhi : (low + high) / 2 ≤ 2 ^ 20 := by linarith
    simp only [bisect]
    rw [NPV_ok _ _ (by linarith)]
    simp only [exceptBind_ok]
    split_ifs with h1 h2
    · exact ⟨(low + high) / 2, rfl, hmidlo, hmidhi⟩
    · exact ih low ((low + high) / 2) fLow (NPVval ((low + high) / 2) cashFlows)
        hlo (by linarith) hmidhi
    · exact ih ((low + high) / 2) high (NPVval ((low + high) / 2) cashFlows) fHigh
        hmidlo (by linarith) hhi

/-- Helper: `IRR` never propagates an `NPV` error — every rate it evaluates
lies in `[-0.9999, 2^20]` — and a non-`none` result lies in that interval. -/
theorem IRR_ok (cashFlows : List ℚ) :
    ∃ o, IRR cashFlows = Except.ok o ∧
      ∀ root, o = some root → -(9999 / 10000) ≤ root ∧ root ≤ 2 ^ 20 := by
  simp only [IRR]
  split_ifs with h1 h2
  · exact ⟨none, rfl, by simp⟩
  · exact ⟨none, rfl, by simp⟩
  · rw [NPV_ok _ _ (by norm_num), NPV_ok _ _ (by norm_num)]
    simp only [exceptBind_ok]
    obtain ⟨high2, fHigh2, heq, hge, hub⟩ :=
      expandHigh_spec cashFlows (NPVval (-(9999 / 10000)) cashFlows) 20 1
        (NPVval 1 cashFlows) (le_refl 1)
    rw [heq]
    simp only [exceptBind_ok]
    split_ifs with h3
    · exact ⟨none, rfl, by simp⟩
    · obtain ⟨root, hroot, hlo, hhi⟩ :=
        bisect_spec cashFlows (1 / 10 ^ 7) 200 (-(9999 / 10000)) high2
          (NPVval (-(9999 / 10000)) cashFlows) fHigh2 (le_refl _) (by linarith)
          (by simpa using hub)
      rw [hroot]
      simp only [exceptBind_ok]
      refine ⟨some root, rfl, ?_⟩
      rintro root' hroot'
      cases hroot'
      exact ⟨hlo, hhi⟩

/-- C10: `IRR` is total and never raises `NPV`'s discount-rate error: for
every finite cash-flow list it returns `Except.ok` (every rate handed to
`NPV` stays within the bracket `[-0.9999, 2^20]`, above −1), and any
non-null result lies in `[-0.9999, 2^20]`. -/
theorem claim10_irr_total (cashFlows : List ℚ) :
    ∃ o, IRR cashFlows = Except.ok o ∧
      ∀ root, o = some root → -(9999 / 10000) ≤ root ∧ root ≤ 2 ^ 20 :=
  IRR_ok cashFlows

end Rainier
section ConcreteEval5

attribute [local semireducible] Rat.add Rat.mul Rat.sub Rat.inv Rat.ofScientific

namespace Rainier

/-- Helper: the exact value the embedded bisection computes for the spec's
IRR example (the tolerance exit fires at a midpoint ≈ 0.1306616). -/
theorem irr_example_value :
    IRR [-100, 60, 60] = Except.ok (some (280595337083 / 2147483648000)) := by decide

end Rainier

end ConcreteEval5
section ConcreteEval6

attribute [local semireducible] Rat.add Rat.mul Rat.sub Rat.inv Rat.ofScientific

namespace Rainier

/-- Helper: the computed IRR value is within 10⁻⁵ of the spec's 0.13066. -/
theorem irr_example_close :
    |(280595337083 / 2147483648000 : ℚ) - 13066 / 100000| < 1 / 10 ^ 5 := by decide

end Rainier

end ConcreteEval6

namespace Rainier

/-- C10 witness: the claim theorem applied to `[-100, 60, 60]`, whose computed
root the bracket bounds then apply to. -/
theorem claim10_irr_total_witness :
    -(9999 / 10000 : ℚ) ≤ 280595337083 / 2147483648000 ∧
    (280595337083 / 2147483648000 : ℚ) ≤ 2 ^ 20 := by
  obtain ⟨o, ho, hb⟩ := claim10_irr_total [-100, 60, 60]
  rw [irr_example_value] at ho
  injection ho with ho
  exact hb _ ho.symm

/-- C6: `IRR` returns `null` for every flows list lacking a positive or
lacking a negative entry, and the bracketed bisection on `[-100, 60, 60]`
returns a root within 10⁻⁵ of 0.13066. -/
theorem claim6_irr_bisection :
    (∀ cashFlows : List ℚ,
      ((∀ x ∈ cashFlows, x ≤ 0) ∨ (∀ x ∈ cashFlows, 0 ≤ x)) →
      IRR cashFlows = Except.ok none) ∧
    ∃ root, IRR [-100, 60, 60] = Except.ok (some root) ∧
      |root - 13066 / 100000| < 1 / 10 ^ 5 := by
  constructor
  · intro cashFlows h
    simp only [IRR]
    split_ifs with h1 h2
    · rfl
    · rfl
    · exfalso
      apply h2
      rcases h with hall | hall
      · have hnone : cashFlows.any (fun value => decide (value > 0)) = false := by
          simp only [List.any_eq_false, decide_eq_true_eq]
          intro x hx
          exact not_lt.mpr (hall x hx)
        simp [hnone]
      · have hnone : cashFlows.any (fun value => decide (value < 0)) = false := by
          simp only [List.any_eq_false, decide_eq_true_eq]
          intro x hx
          exact not_lt.mpr (hall x hx)
        simp [hnone]
  · exact ⟨280595337083 / 2147483648000, irr_example_value, irr_example_close⟩

/-- C6 witness: the claim theorem applied to `[0, 5, 5]`, which has no
negative flow, so `IRR` reports the non-bracketable case as `null`. -/
theorem claim6_irr_bisection_witness : IRR [0, 5, 5] = Except.ok none :=
  claim6_irr_bisection.1 [0, 5, 5] (Or.inr (by norm_num))

end Rainier
namespace Rainier

/-- Helper: with every period ≥ 1 the validation passes and
`seriesFromScenario` returns its own scenario's sorted distinct periods with
the initial outlay prepended to the per-period nets. -/
theorem seriesFromScenario_ok (scenario : InvestmentScenarioInput)
    (h : ∀ p ∈ scenario.points, 1 ≤ p.period) :
    seriesFromScenario scenario = Except.ok (sortedPeriods scenario.points,
      -(scenario.initialInvestment.getD 0) ::
        (sortedPeriods scenario.points).map (netAt scenario.points)) := by
  have hany : (scenario.points.any fun point => decide (point.period < 1)) = false := by
    simp only [List.any_eq_false, decide_eq_true_eq]
    intro p hp
    exact not_lt.mpr (h p hp)
  simp [seriesFromScenario, hany]

/-- Helper: `makeMetrics` succeeds at every discount rate above −1 and echoes
its cash-flow series. -/
theorem makeMetrics_ok (discountRate : ℚ) (cashFlows : List ℚ)
    (h : -1 < discountRate) :
    ∃ metrics, makeMetrics discountRate cashFlows = Except.ok metrics ∧
      metrics.cashFlows = cashFlows := by
  simp only [makeMetrics]
  rw [NPV_ok _ _ h]
  simp only [exceptBind_ok]
  obtain ⟨o, ho, _⟩ := IRR_ok cashFlows
  rw [ho]
  simp only [exceptBind_ok]
  exact ⟨_, rfl, rfl⟩

/-- C1 (amended): with positive integer periods and a discount rate above −1,
`evaluateInvestment` builds each scenario's cash-flow series as
`[−initialInvestment]` followed by that scenario's own sorted distinct
periods' net flows in order, and the incremental series over the sorted union
of both scenarios' periods (a period absent from one side contributing 0 to
the difference); gaps are compacted, so a flow after a gap is discounted in
`NPV` at the exponent given by its position in the sorted period list, not by
its period number. -/
theorem claim1_cash_flow_series_amended (input : EvaluateInvestmentInput)
    (hB : ∀ p ∈ input.baseline.points, 1 ≤ p.period)
    (hG : ∀ p ∈ input.grinderPurchase.points, 1 ≤ p.period)
    (hRate : -1 < input.discountRate) :
    ∃ result, evaluateInvestment input = Except.ok result ∧
      result.baseline.cashFlows =
        -(input.baseline.initialInvestment.getD 0) ::
          (sortedPeriods input.baseline.points).map (netAt input.baseline.points) ∧
      result.grinderPurchase.cashFlows =
        -(input.grinderPurchase.initialInvestment.getD 0) ::
          (sortedPeriods input.grinderPurchase.points).map
            (netAt input.grinderPurchase.points) ∧
      result.incremental.cashFlows =
        (-(input.grinderPurchase.initialInvestment.getD 0) +
            input.baseline.initialInvestment.getD 0) ::
          (List.insertionSort (· ≤ ·) (dedupKeepFirst
              (sortedPeriods input.baseline.points ++
                sortedPeriods input.grinderPurchase.points))).map
            fun period =>
              netAt input.grinderPurchase.points period -
                netAt input.baseline.points period := by
  simp only [evaluateInvestment]
  rw [seriesFromScenario_ok input.baseline hB, seriesFromScenario_ok input.grinderPurchase hG]
  simp only [exceptBind_ok]
  obtain ⟨mB, hmB, hcfB⟩ := makeMetrics_ok input.discountRate
    (-(input.baseline.initialInvestment.getD 0) ::
      (sortedPeriods input.baseline.points).map (netAt input.baseline.points)) hRate
  obtain ⟨mG, hmG, hcfG⟩ := makeMetrics_ok input.discountRate
    (-(input.grinderPurchase.initialInvestment.getD 0) ::
      (sortedPeriods input.grinderPurchase.points).map
        (netAt input.grinderPurchase.points)) hRate
  obtain ⟨mI, hmI, hcfI⟩ := makeMetrics_ok input.discountRate
    ((-(input.grinderPurchase.initialInvestment.getD 0) +
        input.baseline.initialInvestment.getD 0) ::
      (List.insertionSort (· ≤ ·) (dedupKeepFirst
          (sortedPeriods input.baseline.points ++
            sortedPeriods input.grinderPurchase.points))).map
        fun period =>
          netAt input.grinderPurchase.points period -
            netAt input.baseline.points period) hRate
  rw [hmB]
  simp only [exceptBind_ok]
  rw [hmG]
  simp only [exceptBind_ok]
  rw [hmI]
  simp only [exceptBind_ok]
  exact ⟨_, rfl, hcfB, hcfG, hcfI⟩

end Rainier
section ConcreteEval7

attribute [local semireducible] Rat.add Rat.mul Rat.sub Rat.inv Rat.ofScientific

namespace Rainier

/-- C1 counterexample: for scenarios whose points sit only at periods 1 and 3,
the code produces the compacted series `[0, 10, 20]` — not the union-indexed
`[0, 10, 0, 20]` the claim requires — and its NPV at rate 1 is 10, i.e. the
period-3 flow is discounted at exponent 2, whereas the series the claim
mandates has NPV 15/2 (exponent 3). -/
theorem claim1_counterexample :
    (evaluateInvestment gapInput).map (fun r => r.baseline.cashFlows) =
      Except.ok [0, 10, 20] ∧
    (evaluateInvestment gapInput).map (fun r => r.baseline.npv) = Except.ok 10 ∧
    NPVval 1 [0, 10, 0, 20] = 15 / 2 ∧
    ([0, 10, 20] : List ℚ) ≠ [0, 10, 0, 20] ∧ (10 : ℚ) ≠ 15 / 2 :=
  ⟨by decide, by decide, by decide, by decide, by decide⟩

/-- C1 witness: the claim theorem applied to the repository's investment test
input reproduces the test's series `[0,20,20,20]`, `[-100,90,90,90]` and
`[-100,70,70,70]`. -/
theorem claim1_cash_flow_series_amended_witness :
    ∃ result, evaluateInvestment investmentTestInput = Except.ok result ∧
      result.baseline.cashFlows = [0, 20, 20, 20] ∧
      result.grinderPurchase.cashFlows = [-100, 90, 90, 90] ∧
      result.incremental.cashFlows = [-100, 70, 70, 70] := by
  obtain ⟨result, hok, h1, h2, h3⟩ := claim1_cash_flow_series_amended
    investmentTestInput (by decide) (by decide) (by decide)
  refine ⟨result, hok, ?_, ?_, ?_⟩
  · rw [h1]; decide
  · rw [h2]; decide
  · rw [h3]; decide

end Rainier

end ConcreteEval7
namespace Rainier

/-- Helper: `exceptIsOk` is success. -/
theorem exceptIsOk_iff {ε α : Type} (e : Except ε α) :
    exceptIsOk e = true ↔ ∃ a, e = Except.ok a := by
  cases e <;> simp [exceptIsOk]

/-- Helper: a successful `mapExcept` has the length of its input. -/
theorem mapExcept_ok_length {α β : Type} (f : α → Except String β) :
    ∀ (l : List α) (bs : List β), mapExcept f l = Except.ok bs → bs.length = l.length := by
  intro l
  induction l with
  | nil =>
    intro bs h
    injection h with h
    rw [← h]
    rfl
  | cons a rest ih =>
    intro bs h
    simp only [mapExcept] at h
    cases hf : f a with
    | error e => rw [hf] at h; exact Except.noConfusion h
    | ok b =>
      rw [hf] at h
      simp only [exceptBind_ok] at h
      cases hrest : mapExcept f rest with
      | error e => rw [hrest] at h; exact Except.noConfusion h
      | ok bs2 =>
        rw [hrest] at h
        simp only [exceptBind_ok] at h
        injection h with h
        rw [← h]
        simp [ih bs2 hrest]

/-- Helper: `mapExcept` succeeds when every element maps successfully. -/
theorem mapExcept_ok_of_all {α β : Type} (f : α → Except String β) :
    ∀ l : List α, (∀ a ∈ l, ∃ b, f a = Except.ok b) →
    ∃ bs, mapExcept f l = Except.ok bs := by
  intro l
  induction l with
  | nil => intro _; exact ⟨[], rfl⟩
  | cons a rest ih =>
    intro h
    obtain ⟨b, hb⟩ := h a (List.mem_cons_self a rest)
    obtain ⟨bs, hbs⟩ := ih fun x hx => h x (List.mem_cons_of_mem a hx)
    refine ⟨b :: bs, ?_⟩
    simp only [mapExcept, hb, exceptBind_ok, hbs]

/-- Helper: a `flatMap` whose fibers share one length multiplies lengths. -/
theorem length_flatMap_const {α β : Type} (l : List α) (g : α → List β) (k : ℕ)
    (h : ∀ a ∈ l, (g a).length = k) : (l.flatMap g).length = l.length * k := by
  induction l with
  | nil => simp
  | cons a rest ih =>
    simp only [List.flatMap_cons, List.length_append, h a (List.mem_cons_self a rest),
      ih fun x hx => h x (List.mem_cons_of_mem a hx), List.length_cons]
    ring

/-- Helper: the grid input list enumerates the full Cartesian product. -/
theorem gridInputList_length (payload : SensitivityRequestPayload)
    (haulDistanceValues reuseValues grinderAxisValues : List ℚ) :
    (gridInputList payload haulDistanceValues reuseValues grinderAxisValues).length =
      haulDistanceValues.length * (reuseValues.length * grinderAxisValues.length) := by
  simp only [gridInputList]
  refine length_flatMap_const _ _ _ fun d _ => ?_
  refine length_flatMap_const _ _ _ fun r _ => ?_
  exact List.length_map _ _

end Rainier
namespace Rainier

/-- C5: when the product of the three expanded axis lengths exceeds 2500,
`buildSensitivityGrid` fails with the grid-size validation error — the check
sits before the simulation loop, so no per-point simulation work happens —
and otherwise every success carries exactly product-many points (and success
is guaranteed when each grid cell's two simulations pass validation). -/
theorem claim5_grid_limit (payload : SensitivityRequestPayload) :
    (MAX_GRID_POINTS < gridPointCount payload →
      buildSensitivityGrid payload =
        Except.error (gridTooLargeMessage (gridPointCount payload))) ∧
    (∀ result, buildSensitivityGrid payload = Except.ok result →
      result.points.length = gridPointCount payload) ∧
    (gridPointCount payload ≤ MAX_GRID_POINTS →
      (∀ input ∈ gridInputList payload
          (expandRangeValues payload.ranges.haulDistancePerTrip)
          (expandRangeValues payload.ranges.reuseUptakeRate)
          (expandRangeValues (grinderAxisRange payload)),
        exceptIsOk (computeSensitivityPoint input (mkSensitivityContext payload)) = true) →
      ∃ result, buildSensitivityGrid payload = Except.ok result) := by
  refine ⟨?_, ?_, ?_⟩
  · intro h
    simp only [gridPointCount] at h
    simp only [buildSensitivityGrid]
    rw [if_pos h]
    rfl
  · intro result hok
    simp only [buildSensitivityGrid] at hok
    split_ifs at hok with hbig
    · cases hmap : mapExcept
        (fun input => computeSensitivityPoint input (mkSensitivityContext payload))
        (gridInputList payload
          (expandRangeValues payload.ranges.haulDistancePerTrip)
          (expandRangeValues payload.ranges.reuseUptakeRate)
          (expandRangeValues (grinderAxisRange payload))) with
      | error e => rw [hmap] at hok; exact Except.noConfusion hok
      | ok points =>
        rw [hmap] at hok
        simp only [exceptBind_ok] at hok
        injection hok with hok
        rw [← hok]
        show points.length = gridPointCount payload
        rw [mapExcept_ok_length _ _ _ hmap, gridInputList_length]
        rfl
  · intro hle hall
    have hall2 : ∀ input ∈ gridInputList payload
        (expandRangeValues payload.ranges.haulDistancePerTrip)
        (expandRangeValues payload.ranges.reuseUptakeRate)
        (expandRangeValues (grinderAxisRange payload)),
        ∃ p, computeSensitivityPoint input (mkSensitivityContext payload) = Except.ok p :=
      fun input hin => (exceptIsOk_iff _).mp (hall input hin)
    obtain ⟨points, hpoints⟩ := mapExcept_ok_of_all _ _ hall2
    simp only [gridPointCount] at hle
    simp only [buildSensitivityGrid]
    rw [if_neg (not_lt.mpr hle), hpoints]
    simp only [exceptBind_ok]
    exact ⟨_, rfl⟩

end Rainier
section ConcreteEval8

attribute [local semireducible] Rat.add Rat.mul Rat.sub Rat.inv Rat.ofScientific

namespace Rainier

/-- C5 witness: the claim theorem rejects a 14·14·14 = 2744-point request with
the grid-size error and computes exactly 2 points for a 1·2·1 request. -/
theorem claim5_grid_limit_witness :
    buildSensitivityGrid bigSensitivityPayload =
      Except.error (gridTooLargeMessage 2744) ∧
    ∃ result, buildSensitivityGrid smallSensitivityPayload = Except.ok result ∧
      result.points.length = 2 := by
  constructor
  · have hc : gridPointCount bigSensitivityPayload = 2744 := by decide
    have h := (claim5_grid_limit bigSensitivityPayload).1 (by rw [hc]; decide)
    rw [hc] at h
    exact h
  · obtain ⟨result, hres⟩ :=
      (claim5_grid_limit smallSensitivityPayload).2.2 (by decide) (by decide)
    refine ⟨result, hres, ?_⟩
    rw [(claim5_grid_limit smallSensitivityPayload).2.1 result hres]
    decide

end Rainier

end ConcreteEval8
namespace Rainier

/-- Helper: rounding to 6 decimal digits is monotone. -/
theorem round6_mono {a b : ℚ} (h : a ≤ b) : round6 a ≤ round6 b := by
  simp only [round6]
  have h1 : (⌊a * 10 ^ 6 + 1 / 2⌋ : ℤ) ≤ ⌊b * 10 ^ 6 + 1 / 2⌋ := by
    apply Int.floor_mono
    nlinarith
  have h2 : ((⌊a * 10 ^ 6 + 1 / 2⌋ : ℤ) : ℚ) ≤ ((⌊b * 10 ^ 6 + 1 / 2⌋ : ℤ) : ℚ) := by
    exact_mod_cast h1
  exact (div_le_div_iff_of_pos_right (by norm_num)).mpr h2

/-- Helper: holding the haul distance, the two simulation results and the
grinder axis fixed, a larger reuse-uptake rate never increases the reported
scenario virgin-aggregate emissions and never decreases the reported
emissions avoided. -/
theorem sensitivityPointBody_reuse_mono (context : SensitivityContext)
    (d r1 r2 gt : ℚ) (gu1 gu2 : Option ℚ) (b s : SimulationResult)
    (hcap : 0 < context.costDrivers.truckCapacity)
    (hd : 0 ≤ d)
    (hhe : 0 ≤ context.sustainabilityDrivers.haulEmissionsPerKm)
    (hvf : 0 ≤ context.assumptions.virginAggregateEmissionsPerKg)
    (hr : r1 ≤ r2) :
    (sensitivityPointBody ⟨d, r2, gu2, gt⟩ context b s).diagnostics.scenarioVirginAggregateEmissionsTonsCO2e ≤
      (sensitivityPointBody ⟨d, r1, gu1, gt⟩ context b s).diagnostics.scenarioVirginAggregateEmissionsTonsCO2e ∧
    (sensitivityPointBody ⟨d, r1, gu1, gt⟩ context b s).point.emissionsAvoidedTonsCO2e ≤
      (sensitivityPointBody ⟨d, r2, gu2, gt⟩ context b s).point.emissionsAvoidedTonsCO2e := by
  simp only [sensitivityPointBody]
  set inb := context.unitOfWork.inboundMaterial with hinb_def
  set cap := context.costDrivers.truckCapacity with hcap_def
  set he := context.sustainabilityDrivers.haulEmissionsPerKm with hhe_def
  set vf := context.assumptions.virginAggregateEmissionsPerKg with hvf_def
  set res := max 0 (inb - s.materialRecovered) with hres_def
  have hres : (0 : ℚ) ≤ res := le_max_left 0 _
  have hreuse : res * r1 ≤ res * r2 := mul_le_mul_of_nonneg_left hr hres
  have hvirgin : max 0 (inb - res * r2) ≤ max 0 (inb - res * r1) :=
    max_le_max le_rfl (by linarith)
  have hlandfill : max 0 (res - res * r2) ≤ max 0 (res - res * r1) :=
    max_le_max le_rfl (by linarith)
  have htrips : ((⌈max 0 (res - res * r2) / cap⌉ : ℤ) : ℚ) ≤
      ((⌈max 0 (res - res * r1) / cap⌉ : ℤ) : ℚ) := by
    exact_mod_cast Int.ceil_mono ((div_le_div_iff_of_pos_right hcap).mpr hlandfill)
  have hdist : ((⌈max 0 (res - res * r2) / cap⌉ : ℤ) : ℚ) * d * he ≤
      ((⌈max 0 (res - res * r1) / cap⌉ : ℤ) : ℚ) * d * he :=
    mul_le_mul_of_nonneg_right (mul_le_mul_of_nonneg_right htrips hd) hhe
  have hvemis : max 0 (inb - res * r2) * vf ≤ max 0 (inb - res * r1) * vf :=
    mul_le_mul_of_nonneg_right hvirgin hvf
  constructor
  · exact round6_mono hvemis
  · apply round6_mono
    linarith

end Rainier
namespace Rainier

/-- C4: for a schema-valid sensitivity context and two grid points sharing
haul distance and grinder axis, the one with the larger `reuseUptakeRate`
reports virgin-aggregate emissions no larger and emissions avoided no smaller
(exact inequalities, hence within any tolerance). -/
theorem claim4_reuse_monotonicity (context : SensitivityContext)
    (d r1 r2 gt : ℚ) (gu1 gu2 : Option ℚ)
    (hinb : 0 < context.unitOfWork.inboundMaterial)
    (hcap : 0 < context.costDrivers.truckCapacity)
    (hd : 0 < d)
    (hcru : 0 ≤ context.sustainabilityDrivers.crusherRecoveryRate)
    (hcru2 : context.sustainabilityDrivers.crusherRecoveryRate ≤ 1)
    (hgri : 0 ≤ context.sustainabilityDrivers.grinderRecoveryRate)
    (hgri2 : context.sustainabilityDrivers.grinderRecoveryRate ≤ 1)
    (hcth : 0 < context.costDrivers.crusherThroughputKgPerHour)
    (hgth : 0 < gt)
    (hhe : 0 ≤ context.sustainabilityDrivers.haulEmissionsPerKm)
    (hvf : 0 ≤ context.assumptions.virginAggregateEmissionsPerKg)
    (hr : r1 ≤ r2) :
    ∃ p1 p2,
      computeSensitivityPoint ⟨d, r1, gu1, gt⟩ context = Except.ok p1 ∧
      computeSensitivityPoint ⟨d, r2, gu2, gt⟩ context = Except.ok p2 ∧
      p2.diagnostics.scenarioVirginAggregateEmissionsTonsCO2e ≤
        p1.diagnostics.scenarioVirginAggregateEmissionsTonsCO2e ∧
      p1.point.emissionsAvoidedTonsCO2e ≤ p2.point.emissionsAvoidedTonsCO2e := by
  obtain ⟨b, hb⟩ := (simulatePanelFlow_ok_iff
    (toCoreUnitOfWork context.unitOfWork d)
    (toCoreCostDrivers context.costDrivers gt)
    context.sustainabilityDrivers
    { useCrusher := true
      truckSpeedKmPerHour := some DEFAULT_TRUCK_SPEED_KM_PER_HOUR
      loadUnloadHoursPerTrip := some DEFAULT_LOAD_UNLOAD_HOURS_PER_TRIP }).mpr
    ⟨by norm_num [DEFAULT_TRUCK_SPEED_KM_PER_HOUR],
     by norm_num [DEFAULT_LOAD_UNLOAD_HOURS_PER_TRIP],
     by simpa [toCoreCostDrivers] using hcap,
     by simpa [toCoreUnitOfWork] using hinb,
     by simpa [toCoreUnitOfWork] using hd,
     ⟨hcru, hcru2⟩, ⟨hgri, hgri2⟩,
     by simpa [toCoreCostDrivers] using hcth⟩
  obtain ⟨s, hs⟩ := (simulatePanelFlow_ok_iff
    (toCoreUnitOfWork context.unitOfWork d)
    (toCoreCostDrivers context.costDrivers gt)
    context.sustainabilityDrivers
    { useCrusher := false
      truckSpeedKmPerHour := some DEFAULT_TRUCK_SPEED_KM_PER_HOUR
      loadUnloadHoursPerTrip := some DEFAULT_LOAD_UNLOAD_HOURS_PER_TRIP }).mpr
    ⟨by norm_num [DEFAULT_TRUCK_SPEED_KM_PER_HOUR],
     by norm_num [DEFAULT_LOAD_UNLOAD_HOURS_PER_TRIP],
     by simpa [toCoreCostDrivers] using hcap,
     by simpa [toCoreUnitOfWork] using hinb,
     by simpa [toCoreUnitOfWork] using hd,
     ⟨hcru, hcru2⟩, ⟨hgri, hgri2⟩,
     by simpa [toCoreCostDrivers] using hgth⟩
  have hcsp : ∀ (r : ℚ) (gu : Option ℚ),
      computeSensitivityPoint ⟨d, r, gu, gt⟩ context =
        Except.ok (sensitivityPointBody ⟨d, r, gu, gt⟩ context b s) := by
    intro r gu
    simp only [computeSensitivityPoint]
    rw [hb]
    simp only [exceptBind_ok]
    rw [hs]
    simp only [exceptBind_ok]
  refine ⟨_, _, hcsp r1 gu1, hcsp r2 gu2, ?_, ?_⟩
  · exact (sensitivityPointBody_reuse_mono context d r1 r2 gt gu1 gu2 b s hcap
      (le_of_lt hd) hhe hvf hr).1
  · exact (sensitivityPointBody_reuse_mono context d r1 r2 gt gu1 gu2 b s hcap
      (le_of_lt hd) hhe hvf hr).2

end Rainier
section ConcreteEval9

attribute [local semireducible] Rat.add Rat.mul Rat.sub Rat.inv Rat.ofScientific

namespace Rainier

/-- C4 witness: the claim theorem applied to the monotonicity test's fixed
haul distance 30 km and full grinder utilization (throughput 2000), at reuse
rates 0 and 0.5. -/
theorem claim4_reuse_monotonicity_witness :
    ∃ p1 p2,
      computeSensitivityPoint ⟨30, 0, some 1, 2000⟩ monotonicityContext = Except.ok p1 ∧
      computeSensitivityPoint ⟨30, 1 / 2, some 1, 2000⟩ monotonicityContext = Except.ok p2 ∧
      p2.diagnostics.scenarioVirginAggregateEmissionsTonsCO2e ≤
        p1.diagnostics.scenarioVirginAggregateEmissionsTonsCO2e ∧
      p1.point.emissionsAvoidedTonsCO2e ≤ p2.point.emissionsAvoidedTonsCO2e :=
  claim4_reuse_monotonicity monotonicityContext 30 0 (1 / 2) 2000 (some 1) (some 1)
    (by decide) (by decide) (by decide) (by decide) (by decide) (by decide) (by decide)
    (by decide) (by decide) (by decide) (by decide) (by decide)

end Rainier

end ConcreteEval9
